import Mathlib

/-!
Verification of the scenario-driven result-resolution engine of the
simulator content handler (`src/content_handlers/simulator_handler/src/simulator_handler.cpp`).

The handler replays pre-scripted outcomes from a JSON scenario file.  We embed
the JSON tree and the parson accessors the handler uses, the workflow-context
accessors it calls, and the five lifecycle operations (Download, Install,
Apply, Cancel, IsInstalled).  File-system access is abstracted by passing the
result of `json_parse_file` (an optional JSON value; `none` models a missing or
malformed file) as an explicit argument.
-/

set_option autoImplicit false

namespace ADUSim

/-- A JSON value as produced by the parson library.  Only the constructors the
handler can observe are modelled. -/
inductive JSONValue where
  | jnull : JSONValue
  | jnum : Int → JSONValue
  | jstr : String → JSONValue
  | jbool : Bool → JSONValue
  | jobj : List (String × JSONValue) → JSONValue

/-- A parson `JSON_Object`: an ordered list of key/value fields. -/
abbrev JSONObject := List (String × JSONValue)

/-- parson `json_object_get_value`: `NULL` (here `none`) on a `NULL` object or a
missing key, otherwise the value stored under the first occurrence of the key. -/
def json_object_get_value (o : Option JSONObject) (key : String) : Option JSONValue :=
  match o with
  | none => none
  | some fields => (fields.find? (fun p => p.1 == key)).map (fun p => p.2)

/-- parson `json_value_get_object`: the underlying object when the value is an
object, `NULL` (here `none`) otherwise (including a `NULL` value). -/
def json_value_get_object (v : Option JSONValue) : Option JSONObject :=
  match v with
  | some (JSONValue.jobj fields) => some fields
  | _ => none

/-- parson `json_object_get_number`: the number stored under the key, or `0`
when the object is `NULL`, the key is missing, or the value is not a number. -/
def json_object_get_number (o : Option JSONObject) (key : String) : Int :=
  match json_object_get_value o key with
  | some (JSONValue.jnum n) => n
  | _ => 0

/-- parson `json_object_get_string`: the string stored under the key, or `NULL`
(here `none`) when the object is `NULL`, the key is missing, or the value is
not a string. -/
def json_object_get_string (o : Option JSONObject) (key : String) : Option String :=
  match json_object_get_value o key with
  | some (JSONValue.jstr s) => some s
  | _ => none

/-- Modelled from the spec: `aduc/result.h` is not part of the sources; the
generic failure code.  The spec fixes `0` as a failing code. -/
def ADUC_Result_Failure : Int := 0

/-- Modelled from the spec: the fixed default success code of Download. -/
def ADUC_Result_Download_Success : Int := 500

/-- Modelled from the spec: the fixed default success code of Install. -/
def ADUC_Result_Install_Success : Int := 600

/-- Modelled from the spec: the fixed default success code of Apply. -/
def ADUC_Result_Apply_Success : Int := 700

/-- Modelled from the spec: the fixed default success code of Cancel. -/
def ADUC_Result_Cancel_Success : Int := 800

/-- Modelled from the spec: the fixed "Installed" result code of IsInstalled. -/
def ADUC_Result_IsInstalled_Installed : Int := 900

/-- Modelled from the spec: the distinct extended-result code reported when
fetching a target-file descriptor from the orchestrator fails. -/
def ADUC_ERC_STEPS_HANDLER_GET_FILE_ENTITY_FAILURE : Int := 0x30000001

/-- Modelled from the spec: a result code is a failure code iff it is not
positive (success codes are the positive ones; `0` is failing). -/
def IsAducResultCodeFailure (c : Int) : Bool := c ≤ 0

/-- The result structure returned by every lifecycle operation. -/
structure ADUC_Result where
  resultCode : Int
  extendedResultCode : Int
deriving DecidableEq, Repr

/-- A target-file descriptor supplied by the orchestrator. -/
structure ADUC_FileEntity where
  targetFilename : String
deriving DecidableEq, Repr

/-- Modelled from the spec: the observable state of the opaque workflow-context
handle.  `bundleFiles` and `updateFiles` list, per index, the outcome of
fetching that descriptor from the orchestrator (`none` models a fetch
failure); `installedCriteria` is the installed-criteria string (`none` models
a `NULL` string); `resultDetails` is the detail text set on the workflow. -/
structure ADUC_WorkflowHandle where
  bundleFiles : List (Option ADUC_FileEntity)
  updateFiles : List (Option ADUC_FileEntity)
  installedCriteria : Option String
  resultDetails : Option String
deriving DecidableEq, Repr

/-- Modelled from the spec: number of bundle-update files of the workflow. -/
def workflow_get_bundle_updates_count (h : ADUC_WorkflowHandle) : Nat :=
  h.bundleFiles.length

/-- Modelled from the spec: number of plain update files of the workflow. -/
def workflow_get_update_files_count (h : ADUC_WorkflowHandle) : Nat :=
  h.updateFiles.length

/-- Modelled from the spec: the installed-criteria string of the workflow. -/
def workflow_get_installed_criteria (h : ADUC_WorkflowHandle) : Option String :=
  h.installedCriteria

/-- Modelled from the spec: set the result-detail text on the workflow. -/
def workflow_set_result_details (h : ADUC_WorkflowHandle) (d : Option String) :
    ADUC_WorkflowHandle :=
  { h with resultDetails := d }

/-- `ReadDataFile`: parse the scenario file and return its root JSON object.
The argument is the outcome of `json_parse_file` (`none` when the file is
missing or fails to parse); `json_value_get_object` then yields `none` unless
the root value is an object. -/
def ReadDataFile (parsed : Option JSONValue) : Option JSONObject :=
  json_value_get_object parsed

/-- The exact-match-then-wildcard lookup step shared by Download (per-file
results, lines 233-241) and `SimulatorActionHelper` (lines 297-308): look the
selector up in the table; when that yields no object, fall back to the
catch-all key `"*"`. -/
def resolveSelector (table : Option JSONObject) (s : String) : Option JSONObject :=
  match json_value_get_object (json_object_get_value table s) with
  | some r => some r
  | none => json_value_get_object (json_object_get_value table "*")

/-- The file list Download iterates over: bundle updates when there are any,
plain update files otherwise. -/
def downloadFiles (h : ADUC_WorkflowHandle) : List (Option ADUC_FileEntity) :=
  if workflow_get_bundle_updates_count h ≠ 0 then h.bundleFiles else h.updateFiles

/-- The `"download"` action result table of a parsed scenario document. -/
def downloadTable (data : JSONObject) : Option JSONObject :=
  json_value_get_object (json_object_get_value (some data) "download")

/-- The per-file loop of `SimulatorHandlerImpl::Download` (lines 216-261).
Arguments: the `"download"` result table, the remaining target-file
descriptors, the current result value, and the workflow detail text so far.
Returns the final result, the final detail text, and the number of
target-file fetch attempts made. -/
def downloadLoop (dl : Option JSONObject) :
    List (Option ADUC_FileEntity) → ADUC_Result → Option String →
    ADUC_Result × Option String × Nat
  | [], res, details => (res, details, 0)
  | fe :: rest, _, details =>
    match fe with
    | none =>
      ({ resultCode := ADUC_Result_Failure,
         extendedResultCode := ADUC_ERC_STEPS_HANDLER_GET_FILE_ENTITY_FAILURE },
       details, 1)
    | some entity =>
      match resolveSelector dl entity.targetFilename with
      | some rf =>
        let r : ADUC_Result :=
          { resultCode := json_object_get_number (some rf) "resultCode",
            extendedResultCode := json_object_get_number (some rf) "extendedResultCode" }
        let d := json_object_get_string (some rf) "resultDetails"
        if IsAducResultCodeFailure r.resultCode then
          (r, d, 1)
        else
          let out := downloadLoop dl rest r d
          (out.1, out.2.1, out.2.2 + 1)
      | none =>
        let out := downloadLoop dl rest
          { resultCode := ADUC_Result_Download_Success, extendedResultCode := 0 } details
        (out.1, out.2.1, out.2.2 + 1)

/-- `SimulatorHandlerImpl::Download`.  Returns the result, the workflow handle
after the call (its detail text possibly updated), and the number of
target-file fetch attempts made. -/
def Download (h : ADUC_WorkflowHandle) (parsed : Option JSONValue) :
    ADUC_Result × ADUC_WorkflowHandle × Nat :=
  match ReadDataFile parsed with
  | none =>
    ({ resultCode := ADUC_Result_Download_Success, extendedResultCode := 0 }, h, 0)
  | some data =>
    let out := downloadLoop (downloadTable data) (downloadFiles h)
      { resultCode := ADUC_Result_Download_Success, extendedResultCode := 0 }
      h.resultDetails
    (out.1, workflow_set_result_details h out.2.1, out.2.2)

/-- `SimulatorActionHelper` (lines 273-333): resolve one action result.  When a
non-empty selector is supplied, apply the exact-then-wildcard lookup inside
the action table; otherwise the action table itself is the record.  Returns
the result and the workflow handle after the call. -/
def SimulatorActionHelper (h : ADUC_WorkflowHandle) (parsed : Option JSONValue)
    (defaultResultCode : Int) (action : String) (resultSelector : Option String) :
    ADUC_Result × ADUC_WorkflowHandle :=
  match ReadDataFile parsed with
  | none => ({ resultCode := defaultResultCode, extendedResultCode := 0 }, h)
  | some data =>
    let t0 := json_value_get_object (json_object_get_value (some data) action)
    let resultObject :=
      match resultSelector with
      | some sel => if sel = "" then t0 else resolveSelector t0 sel
      | none => t0
    match resultObject with
    | some ro =>
      ({ resultCode := json_object_get_number (some ro) "resultCode",
         extendedResultCode := json_object_get_number (some ro) "extendedResultCode" },
       workflow_set_result_details h (json_object_get_string (some ro) "resultDetails"))
    | none => ({ resultCode := defaultResultCode, extendedResultCode := 0 }, h)

/-- `SimulatorHandlerImpl::Install`: helper with the install default, action
key `"install"` and a null selector. -/
def Install (h : ADUC_WorkflowHandle) (parsed : Option JSONValue) :
    ADUC_Result × ADUC_WorkflowHandle :=
  SimulatorActionHelper h parsed ADUC_Result_Install_Success "install" none

/-- `SimulatorHandlerImpl::Apply`: helper with the apply default, action key
`"apply"` and a null selector. -/
def Apply (h : ADUC_WorkflowHandle) (parsed : Option JSONValue) :
    ADUC_Result × ADUC_WorkflowHandle :=
  SimulatorActionHelper h parsed ADUC_Result_Apply_Success "apply" none

/-- `SimulatorHandlerImpl::Cancel`: helper with the cancel default, action key
`"cancel"` and a null selector. -/
def Cancel (h : ADUC_WorkflowHandle) (parsed : Option JSONValue) :
    ADUC_Result × ADUC_WorkflowHandle :=
  SimulatorActionHelper h parsed ADUC_Result_Cancel_Success "cancel" none

/-- `SimulatorHandlerImpl::IsInstalled`: helper with the "Installed" default,
action key `"isInstalled"` and the installed-criteria string as selector. -/
def IsInstalled (h : ADUC_WorkflowHandle) (parsed : Option JSONValue) :
    ADUC_Result × ADUC_WorkflowHandle :=
  SimulatorActionHelper h parsed ADUC_Result_IsInstalled_Installed "isInstalled"
    (workflow_get_installed_criteria h)

/-- One Download loop step over a file succeeds: the descriptor fetch worked
and the per-file resolution did not produce a failing result code. -/
def fileStepSucceeds (dl : Option JSONObject) (fe : Option ADUC_FileEntity) : Bool :=
  match fe with
  | none => false
  | some e =>
    match resolveSelector dl e.targetFilename with
    | some rf => !(IsAducResultCodeFailure (json_object_get_number (some rf) "resultCode"))
    | none => true

/-- A workflow handle with no files, no installed criteria and no detail text. -/
def hWit : ADUC_WorkflowHandle :=
  { bundleFiles := [], updateFiles := [], installedCriteria := none, resultDetails := none }

/-- The scenario document of the round-trip test: an install table whose
top-level fields are the record itself. -/
def installScenario603 : JSONValue :=
  JSONValue.jobj [("install",
    JSONValue.jobj [("resultCode", JSONValue.jnum 603),
                    ("extendedResultCode", JSONValue.jnum 0),
                    ("resultDetails", JSONValue.jstr "x")])]

/-- A result table carrying an exact record under key `f1` and a wildcard
record. -/
def tblWit : Option JSONObject :=
  some [("f1", JSONValue.jobj [("resultCode", JSONValue.jnum 7)]),
        ("*", JSONValue.jobj [("resultCode", JSONValue.jnum 9)])]

/-- A workflow handle with three fetchable bundle files. -/
def hWitFiles : ADUC_WorkflowHandle :=
  { bundleFiles := [some { targetFilename := "a" },
                    some { targetFilename := "b" },
                    some { targetFilename := "c" }],
    updateFiles := [], installedCriteria := none, resultDetails := none }

/-- A scenario whose download table scripts a failure for file `b` only. -/
def scenDownloadFailB : JSONValue :=
  JSONValue.jobj [("download",
    JSONValue.jobj [("b",
      JSONValue.jobj [("resultCode", JSONValue.jnum 0),
                      ("extendedResultCode", JSONValue.jnum 42),
                      ("resultDetails", JSONValue.jstr "boom")])])]

/-- A workflow handle whose second bundle-file fetch fails. -/
def hWitFetchFail : ADUC_WorkflowHandle :=
  { bundleFiles := [some { targetFilename := "a" }, none, some { targetFilename := "c" }],
    updateFiles := [], installedCriteria := none, resultDetails := none }

/-- A scenario parsing to an empty root object. -/
def scenEmpty : JSONValue := JSONValue.jobj []

/-- A scenario whose download table scripts distinct success records, with
detail texts, for files `a` and `b`. -/
def scenDownloadTwoSuccesses : JSONValue :=
  JSONValue.jobj [("download",
    JSONValue.jobj [("a",
      JSONValue.jobj [("resultCode", JSONValue.jnum 501),
                      ("resultDetails", JSONValue.jstr "da")]),
     ("b",
      JSONValue.jobj [("resultCode", JSONValue.jnum 502),
                      ("resultDetails", JSONValue.jstr "db")])])]

/-- A workflow handle with two fetchable bundle files `a` and `b`. -/
def hWitTwoFiles : ADUC_WorkflowHandle :=
  { bundleFiles := [some { targetFilename := "a" }, some { targetFilename := "b" }],
    updateFiles := [], installedCriteria := none, resultDetails := none }

/-- A scenario whose download table maps file `a` to the empty record. -/
def scenDownloadEmptyRecord : JSONValue :=
  JSONValue.jobj [("download", JSONValue.jobj [("a", JSONValue.jobj [])])]

/-- A scenario whose isInstalled table holds only a wildcard sub-record. -/
def scenIsInstalledWildcardOnly : JSONValue :=
  JSONValue.jobj [("isInstalled",
    JSONValue.jobj [("*", JSONValue.jobj [("resultCode", JSONValue.jnum 901)])])]

/-- Claim C1: for every action result table and every non-empty selector, the
lookup order is exact match, then wildcard, then no override: a record stored
under the selector is returned (exact match wins over wildcard); when the
selector yields no record, resolution equals the wildcard lookup; and when
resolution yields no override, the common resolver returns the
caller-supplied default success result. -/
theorem C1_selector_lookup_order (table : Option JSONObject) (s : String)
    (hs : s ≠ "") :
    (∀ r, json_value_get_object (json_object_get_value table s) = some r →
      resolveSelector table s = some r) ∧
    (json_value_get_object (json_object_get_value table s) = none →
      resolveSelector table s =
        json_value_get_object (json_object_get_value table "*")) ∧
    (resolveSelector table s = none →
      ∀ (h : ADUC_WorkflowHandle) (parsed : Option JSONValue) (d : Int)
        (a : String) (data : JSONObject),
        ReadDataFile parsed = some data →
        json_value_get_object (json_object_get_value (some data) a) = table →
        (SimulatorActionHelper h parsed d a (some s)).1 =
          { resultCode := d, extendedResultCode := 0 }) := by
  refine ⟨?_, ?_, ?_⟩
  · intro r hr
    simp [resolveSelector, hr]
  · intro h0
    simp [resolveSelector, h0]
  · intro hres h parsed d a data hdata htbl
    simp [SimulatorActionHelper, hdata, htbl, hs, hres]

/-- Witness for C1 at a concrete table containing both an exact and a
wildcard record: the exact record is returned. -/
theorem C1_selector_lookup_order_witness :
    resolveSelector tblWit "f1" = some [("resultCode", JSONValue.jnum 7)] :=
  (C1_selector_lookup_order tblWit "f1" (by decide)).1
    [("resultCode", JSONValue.jnum 7)] rfl

/-- Claim C3: when the scenario file is missing or fails to parse (the parse
yields no value), every lifecycle operation returns its fixed default success
result, the workflow handle is left unchanged, and Download performs no
per-file iteration (zero fetch attempts). -/
theorem C3_missing_scenario_defaults (h : ADUC_WorkflowHandle) :
    Download h none =
      ({ resultCode := ADUC_Result_Download_Success, extendedResultCode := 0 }, h, 0) ∧
    Install h none =
      ({ resultCode := ADUC_Result_Install_Success, extendedResultCode := 0 }, h) ∧
    Apply h none =
      ({ resultCode := ADUC_Result_Apply_Success, extendedResultCode := 0 }, h) ∧
    Cancel h none =
      ({ resultCode := ADUC_Result_Cancel_Success, extendedResultCode := 0 }, h) ∧
    IsInstalled h none =
      ({ resultCode := ADUC_Result_IsInstalled_Installed, extendedResultCode := 0 }, h) :=
  ⟨rfl, rfl, rfl, rfl, rfl⟩

/-- Claim C4: Install, Apply and Cancel pass a null selector, so the action
table itself is the record: its top-level fields resultCode,
extendedResultCode and resultDetails are read directly; in particular the
round-trip scenario makes Install return 603 with detail text `x`. -/
theorem C4_null_selector_flat_record (h : ADUC_WorkflowHandle)
    (parsed : Option JSONValue) (data t : JSONObject) :
    (ReadDataFile parsed = some data →
      json_value_get_object (json_object_get_value (some data) "install") = some t →
      Install h parsed =
        ({ resultCode := json_object_get_number (some t) "resultCode",
           extendedResultCode := json_object_get_number (some t) "extendedResultCode" },
         workflow_set_result_details h (json_object_get_string (some t) "resultDetails"))) ∧
    (ReadDataFile parsed = some data →
      json_value_get_object (json_object_get_value (some data) "apply") = some t →
      Apply h parsed =
        ({ resultCode := json_object_get_number (some t) "resultCode",
           extendedResultCode := json_object_get_number (some t) "extendedResultCode" },
         workflow_set_result_details h (json_object_get_string (some t) "resultDetails"))) ∧
    (ReadDataFile parsed = some data →
      json_value_get_object (json_object_get_value (some data) "cancel") = some t →
      Cancel h parsed =
        ({ resultCode := json_object_get_number (some t) "resultCode",
           extendedResultCode := json_object_get_number (some t) "extendedResultCode" },
         workflow_set_result_details h (json_object_get_string (some t) "resultDetails"))) ∧
    (Install h (some installScenario603) =
      ({ resultCode := 603, extendedResultCode := 0 },
       workflow_set_result_details h (some "x"))) := by
  refine ⟨?_, ?_, ?_, rfl⟩ <;>
    · intro hdata ht
      simp [Install, Apply, Cancel, SimulatorActionHelper, hdata, ht]

/-- Witness for C4: the round-trip scenario resolved through the flat-record
branch yields result code 603 and detail text `x`. -/
theorem C4_null_selector_flat_record_witness :
    Install hWit (some installScenario603) =
      ({ resultCode := 603, extendedResultCode := 0 },
       workflow_set_result_details hWit (some "x")) :=
  (C4_null_selector_flat_record hWit (some installScenario603)
      [("install",
        JSONValue.jobj [("resultCode", JSONValue.jnum 603),
                        ("extendedResultCode", JSONValue.jnum 0),
                        ("resultDetails", JSONValue.jstr "x")])]
      [("resultCode", JSONValue.jnum 603),
       ("extendedResultCode", JSONValue.jnum 0),
       ("resultDetails", JSONValue.jstr "x")]).1 rfl rfl

/-- When every file before index k processes successfully and the file at
index k is fetched and resolves to a failing record, the loop returns that
record's result and detail text after exactly k + 1 fetch attempts. -/
lemma downloadLoop_first_failure (dl : Option JSONObject) :
    ∀ (k : Nat) (files : List (Option ADUC_FileEntity)) (res : ADUC_Result)
      (d0 : Option String) (e : ADUC_FileEntity) (rf : JSONObject),
      (∀ j, j < k → fileStepSucceeds dl (files.getD j none) = true) →
      files.get? k = some (some e) →
      resolveSelector dl e.targetFilename = some rf →
      IsAducResultCodeFailure (json_object_get_number (some rf) "resultCode") = true →
      downloadLoop dl files res d0 =
        ({ resultCode := json_object_get_number (some rf) "resultCode",
           extendedResultCode := json_object_get_number (some rf) "extendedResultCode" },
         json_object_get_string (some rf) "resultDetails", k + 1) := by
  intro k
  induction k with
  | zero =>
    intro files res d0 e rf _ hk hrf hfail
    cases files with
    | nil => cases hk
    | cons f0 rest =>
      have hf0 : f0 = some e := by simpa using hk
      subst hf0
      simp [downloadLoop, hrf, hfail]
  | succ k ih =>
    intro files res d0 e rf hsucc hk hrf hfail
    cases files with
    | nil => cases hk
    | cons f0 rest =>
      have h0 : fileStepSucceeds dl f0 = true := by
        simpa using hsucc 0 (Nat.succ_pos k)
      cases f0 with
      | none => simp [fileStepSucceeds] at h0
      | some e0 =>
        have hk' : rest.get? k = some (some e) := by simpa using hk
        have hsucc' : ∀ j, j < k → fileStepSucceeds dl (rest.getD j none) = true := by
          intro j hj
          simpa using hsucc (j + 1) (Nat.succ_lt_succ hj)
        cases hres : resolveSelector dl e0.targetFilename with
        | none =>
          simp [downloadLoop, hres, ih rest _ _ e rf hsucc' hk' hrf hfail]
        | some rf0 =>
          have hnf : IsAducResultCodeFailure
              (json_object_get_number (some rf0) "resultCode") = false := by
            have := h0
            simp [fileStepSucceeds, hres] at this
            simpa using this
          simp [downloadLoop, hres, hnf, ih rest _ _ e rf hsucc' hk' hrf hfail]

/-- When every file before index i processes successfully and fetching the
descriptor at index i fails, the loop returns the file-entity-fetch failure
result after exactly i + 1 fetch attempts. -/
lemma downloadLoop_fetch_failure (dl : Option JSONObject) :
    ∀ (i : Nat) (files : List (Option ADUC_FileEntity)) (res : ADUC_Result)
      (d0 : Option String),
      (∀ j, j < i → fileStepSucceeds dl (files.getD j none) = true) →
      files.get? i = some none →
      (downloadLoop dl files res d0).1 =
        { resultCode := ADUC_Result_Failure,
          extendedResultCode := ADUC_ERC_STEPS_HANDLER_GET_FILE_ENTITY_FAILURE } ∧
      (downloadLoop dl files res d0).2.2 = i + 1 := by
  intro i
  induction i with
  | zero =>
    intro files res d0 _ hi
    cases files with
    | nil => cases hi
    | cons f0 rest =>
      have hf0 : f0 = none := by simpa using hi
      subst hf0
      simp [downloadLoop]
  | succ i ih =>
    intro files res d0 hsucc hi
    cases files with
    | nil => cases hi
    | cons f0 rest =>
      have h0 : fileStepSucceeds dl f0 = true := by
        simpa using hsucc 0 (Nat.succ_pos i)
      cases f0 with
      | none => simp [fileStepSucceeds] at h0
      | some e0 =>
        have hi' : rest.get? i = some none := by simpa using hi
        have hsucc' : ∀ j, j < i → fileStepSucceeds dl (rest.getD j none) = true := by
          intro j hj
          simpa using hsucc (j + 1) (Nat.succ_lt_succ hj)
        cases hres : resolveSelector dl e0.targetFilename with
        | none =>
          have hrec := ih rest ⟨ADUC_Result_Download_Success, 0⟩ d0 hsucc' hi'
          simp [downloadLoop, hres, hrec.1, hrec.2]
        | some rf0 =>
          have hnf : IsAducResultCodeFailure
              (json_object_get_number (some rf0) "resultCode") = false := by
            have := h0
            simp [fileStepSucceeds, hres] at this
            simpa using this
          have hrec := ih rest
            ⟨json_object_get_number (some rf0) "resultCode",
             json_object_get_number (some rf0) "extendedResultCode"⟩
            (json_object_get_string (some rf0) "resultDetails") hsucc' hi'
          simp [downloadLoop, hres, hnf, hrec.1, hrec.2]

/-- Claim C2: in a Download in which every file before index k processes
successfully and the file at index k resolves to a record with a failing
result code, Download returns exactly that record's result and makes exactly
k + 1 fetch attempts, so no file after k is fetched or resolved. -/
theorem C2_failing_file_short_circuits (h : ADUC_WorkflowHandle)
    (parsed : Option JSONValue) (data : JSONObject) (k : Nat)
    (e : ADUC_FileEntity) (rf : JSONObject)
    (hdata : ReadDataFile parsed = some data)
    (hbefore : ∀ j, j < k →
      fileStepSucceeds (downloadTable data) ((downloadFiles h).getD j none) = true)
    (hk : (downloadFiles h).get? k = some (some e))
    (hrf : resolveSelector (downloadTable data) e.targetFilename = some rf)
    (hfail : IsAducResultCodeFailure (json_object_get_number (some rf) "resultCode") = true) :
    (Download h parsed).1 =
      { resultCode := json_object_get_number (some rf) "resultCode",
        extendedResultCode := json_object_get_number (some rf) "extendedResultCode" } ∧
    (Download h parsed).2.2 = k + 1 := by
  have hloop := downloadLoop_first_failure (downloadTable data) k (downloadFiles h)
    { resultCode := ADUC_Result_Download_Success, extendedResultCode := 0 }
    h.resultDetails e rf hbefore hk hrf hfail
  simp [Download, hdata, hloop]

/-- Witness for C2: file b (index 1) is scripted to fail with extended code
42; Download returns that record and fetches two of the three files. -/
theorem C2_failing_file_short_circuits_witness :
    (Download hWitFiles (some scenDownloadFailB)).1 =
      { resultCode := 0, extendedResultCode := 42 } ∧
    (Download hWitFiles (some scenDownloadFailB)).2.2 = 2 := by
  have hres := C2_failing_file_short_circuits hWitFiles (some scenDownloadFailB)
    [("download",
      JSONValue.jobj [("b",
        JSONValue.jobj [("resultCode", JSONValue.jnum 0),
                        ("extendedResultCode", JSONValue.jnum 42),
                        ("resultDetails", JSONValue.jstr "boom")])])]
    1 { targetFilename := "b" }
    [("resultCode", JSONValue.jnum 0),
     ("extendedResultCode", JSONValue.jnum 42),
     ("resultDetails", JSONValue.jstr "boom")]
    rfl (by decide) rfl rfl (by decide)
  exact ⟨hres.1, hres.2⟩

/-- Claim C5: in a Download in which every file before index i processes
successfully and fetching the descriptor at index i fails, Download returns
the failure result carrying the distinct file-entity-fetch extended-result
code and makes exactly i + 1 fetch attempts. -/
theorem C5_fetch_failure_aborts (h : ADUC_WorkflowHandle)
    (parsed : Option JSONValue) (data : JSONObject) (i : Nat)
    (hdata : ReadDataFile parsed = some data)
    (hbefore : ∀ j, j < i →
      fileStepSucceeds (downloadTable data) ((downloadFiles h).getD j none) = true)
    (hi : (downloadFiles h).get? i = some none) :
    (Download h parsed).1 =
      { resultCode := ADUC_Result_Failure,
        extendedResultCode := ADUC_ERC_STEPS_HANDLER_GET_FILE_ENTITY_FAILURE } ∧
    (Download h parsed).2.2 = i + 1 := by
  have hloop := downloadLoop_fetch_failure (downloadTable data) i (downloadFiles h)
    { resultCode := ADUC_Result_Download_Success, extendedResultCode := 0 }
    h.resultDetails hbefore hi
  simp [Download, hdata, hloop.1, hloop.2]

/-- Witness for C5: fetching the second descriptor fails; Download returns
the file-entity-fetch failure after two fetch attempts. -/
theorem C5_fetch_failure_aborts_witness :
    (Download hWitFetchFail (some scenEmpty)).1 =
      { resultCode := ADUC_Result_Failure,
        extendedResultCode := ADUC_ERC_STEPS_HANDLER_GET_FILE_ENTITY_FAILURE } ∧
    (Download hWitFetchFail (some scenEmpty)).2.2 = 2 := by
  have hres := C5_fetch_failure_aborts hWitFetchFail (some scenEmpty) [] 1
    rfl (by decide) rfl
  exact ⟨hres.1, hres.2⟩

/-- Claim C6: a Download whose target-file count is zero (no bundle files and
no plain update files) returns the default download-success result with no
fetch attempts and leaves the handle unchanged, whether or not a scenario
document is present. -/
theorem C6_zero_files_default (h : ADUC_WorkflowHandle) (parsed : Option JSONValue)
    (hb : h.bundleFiles = []) (hu : h.updateFiles = []) :
    Download h parsed =
      ({ resultCode := ADUC_Result_Download_Success, extendedResultCode := 0 }, h, 0) := by
  have hfiles : downloadFiles h = [] := by
    simp [downloadFiles, workflow_get_bundle_updates_count, hb, hu]
  cases hp : ReadDataFile parsed with
  | none => simp [Download, hp]
  | some data => simp [Download, hp, hfiles, downloadLoop, workflow_set_result_details]

/-- Witness for C6: with no files and a scenario document present, Download
returns the default success result and fetches nothing. -/
theorem C6_zero_files_default_witness :
    Download hWit (some scenDownloadFailB) =
      ({ resultCode := ADUC_Result_Download_Success, extendedResultCode := 0 }, hWit, 0) :=
  C6_zero_files_default hWit (some scenDownloadFailB) rfl rfl

/-- The result and fetch count of the download loop do not depend on the
detail text accumulated so far. -/
lemma downloadLoop_detail_irrel (dl : Option JSONObject) :
    ∀ (files : List (Option ADUC_FileEntity)) (res : ADUC_Result) (d0 d1 : Option String),
      (downloadLoop dl files res d0).1 = (downloadLoop dl files res d1).1 ∧
      (downloadLoop dl files res d0).2.2 = (downloadLoop dl files res d1).2.2 := by
  intro files
  induction files with
  | nil => intro res d0 d1; exact ⟨rfl, rfl⟩
  | cons fe rest ih =>
    intro res d0 d1
    cases fe with
    | none => exact ⟨rfl, rfl⟩
    | some e =>
      cases hres : resolveSelector dl e.targetFilename with
      | none =>
        have hrec := ih ⟨ADUC_Result_Download_Success, 0⟩ d0 d1
        simp [downloadLoop, hres, hrec.1, hrec.2]
      | some rf =>
        cases hf : IsAducResultCodeFailure (json_object_get_number (some rf) "resultCode") with
        | true => simp [downloadLoop, hres, hf]
        | false => simp [downloadLoop, hres, hf]

/-- The result of the common resolver does not depend on the workflow handle
it is given (the handle is only written to, never read). -/
lemma SimulatorActionHelper_fst_irrel (h h' : ADUC_WorkflowHandle)
    (parsed : Option JSONValue) (c : Int) (a : String) (sel : Option String) :
    (SimulatorActionHelper h parsed c a sel).1 =
      (SimulatorActionHelper h' parsed c a sel).1 := by
  unfold SimulatorActionHelper
  cases ReadDataFile parsed with
  | none => rfl
  | some data =>
    dsimp only
    cases (match sel with
      | some s =>
        if s = "" then json_value_get_object (json_object_get_value (some data) a)
        else resolveSelector (json_value_get_object (json_object_get_value (some data) a)) s
      | none => json_value_get_object (json_object_get_value (some data) a)) with
    | none => rfl
    | some ro => rfl

/-- The common resolver changes at most the detail text of the handle: the
file lists and the installed-criteria string are preserved. -/
lemma SimulatorActionHelper_snd_frame (h : ADUC_WorkflowHandle)
    (parsed : Option JSONValue) (c : Int) (a : String) (sel : Option String) :
    (SimulatorActionHelper h parsed c a sel).2.bundleFiles = h.bundleFiles ∧
    (SimulatorActionHelper h parsed c a sel).2.updateFiles = h.updateFiles ∧
    (SimulatorActionHelper h parsed c a sel).2.installedCriteria = h.installedCriteria := by
  unfold SimulatorActionHelper
  cases ReadDataFile parsed with
  | none => exact ⟨rfl, rfl, rfl⟩
  | some data =>
    dsimp only
    cases (match sel with
      | some s =>
        if s = "" then json_value_get_object (json_object_get_value (some data) a)
        else resolveSelector (json_value_get_object (json_object_get_value (some data) a)) s
      | none => json_value_get_object (json_object_get_value (some data) a)) with
    | none => exact ⟨rfl, rfl, rfl⟩
    | some ro => exact ⟨rfl, rfl, rfl⟩

/-- Writing the detail text on the handle changes neither the result nor the
fetch count of a subsequent Download. -/
lemma Download_fst_count_detail_irrel (h : ADUC_WorkflowHandle)
    (d : Option String) (parsed : Option JSONValue) :
    (Download (workflow_set_result_details h d) parsed).1 = (Download h parsed).1 ∧
    (Download (workflow_set_result_details h d) parsed).2.2 = (Download h parsed).2.2 := by
  cases hp : ReadDataFile parsed with
  | none => simp [Download, hp]
  | some data =>
    have hfiles : downloadFiles (workflow_set_result_details h d) = downloadFiles h := rfl
    have hloop := downloadLoop_detail_irrel (downloadTable data) (downloadFiles h)
      ⟨ADUC_Result_Download_Success, 0⟩ d h.resultDetails
    simp only [Download, hp, hfiles, workflow_set_result_details]
    exact ⟨hloop.1, hloop.2⟩

/-- Claim C7: the operations keep no cross-call state: with the scenario file
unchanged, running any lifecycle operation a second time, on the handle the
first call returned, yields the same result record (and, for Download, the
same fetch count) as the first call. -/
theorem C7_repeat_call_same_result (h : ADUC_WorkflowHandle) (parsed : Option JSONValue) :
    (Download ((Download h parsed).2.1) parsed).1 = (Download h parsed).1 ∧
    (Download ((Download h parsed).2.1) parsed).2.2 = (Download h parsed).2.2 ∧
    (Install ((Install h parsed).2) parsed).1 = (Install h parsed).1 ∧
    (Apply ((Apply h parsed).2) parsed).1 = (Apply h parsed).1 ∧
    (Cancel ((Cancel h parsed).2) parsed).1 = (Cancel h parsed).1 ∧
    (IsInstalled ((IsInstalled h parsed).2) parsed).1 = (IsInstalled h parsed).1 := by
  have hdl : (Download ((Download h parsed).2.1) parsed).1 = (Download h parsed).1 ∧
      (Download ((Download h parsed).2.1) parsed).2.2 = (Download h parsed).2.2 := by
    cases hp : ReadDataFile parsed with
    | none =>
      have hsame : (Download h parsed).2.1 = h := by simp [Download, hp]
      rw [hsame]
      exact ⟨rfl, rfl⟩
    | some data =>
      have hsame : (Download h parsed).2.1 =
          workflow_set_result_details h
            (downloadLoop (downloadTable data) (downloadFiles h)
              ⟨ADUC_Result_Download_Success, 0⟩ h.resultDetails).2.1 := by
        simp [Download, hp]
      rw [hsame]
      exact Download_fst_count_detail_irrel h _ parsed
  have hii : (IsInstalled ((IsInstalled h parsed).2) parsed).1 = (IsInstalled h parsed).1 := by
    have hcrit := (SimulatorActionHelper_snd_frame h parsed
      ADUC_Result_IsInstalled_Installed "isInstalled" (workflow_get_installed_criteria h)).2.2
    show (SimulatorActionHelper ((IsInstalled h parsed).2) parsed
        ADUC_Result_IsInstalled_Installed "isInstalled"
        (workflow_get_installed_criteria ((IsInstalled h parsed).2))).1 = _
    rw [show workflow_get_installed_criteria ((IsInstalled h parsed).2) =
        workflow_get_installed_criteria h from hcrit]
    exact SimulatorActionHelper_fst_irrel _ h parsed _ _ _
  exact ⟨hdl.1, hdl.2,
    SimulatorActionHelper_fst_irrel _ h parsed _ _ _,
    SimulatorActionHelper_fst_irrel _ h parsed _ _ _,
    SimulatorActionHelper_fst_irrel _ h parsed _ _ _,
    hii⟩

/-- When every processed file is fetched and matches no record, the loop
leaves the detail text unchanged. -/
lemma downloadLoop_no_match_detail (dl : Option JSONObject) :
    ∀ (files : List (Option ADUC_FileEntity)) (res : ADUC_Result) (d0 : Option String),
      (∀ j, j < files.length →
        ∃ e, files.get? j = some (some e) ∧ resolveSelector dl e.targetFilename = none) →
      (downloadLoop dl files res d0).2.1 = d0 := by
  intro files
  induction files with
  | nil => intro res d0 _; rfl
  | cons f0 rest ih =>
    intro res d0 hall
    obtain ⟨e0, he0, hres0⟩ := hall 0 (Nat.succ_pos _)
    have hf0 : f0 = some e0 := by simpa using he0
    subst hf0
    have hrest : ∀ j, j < rest.length →
        ∃ e, rest.get? j = some (some e) ∧ resolveSelector dl e.targetFilename = none := by
      intro j hj
      obtain ⟨e, he, hr⟩ := hall (j + 1) (Nat.succ_lt_succ hj)
      exact ⟨e, by simpa using he, hr⟩
    simp [downloadLoop, hres0, ih ⟨ADUC_Result_Download_Success, 0⟩ d0 hrest]

/-- When every file before index k processes successfully, the file at index
k matches a record with a non-failing result code, and every later file is
fetched but matches no record, the loop's final detail text is that of the
record matched at k (the last matched file). -/
lemma downloadLoop_last_match_detail (dl : Option JSONObject) :
    ∀ (k : Nat) (files : List (Option ADUC_FileEntity)) (res : ADUC_Result)
      (d0 : Option String) (e : ADUC_FileEntity) (rf : JSONObject),
      (∀ j, j < k → fileStepSucceeds dl (files.getD j none) = true) →
      files.get? k = some (some e) →
      resolveSelector dl e.targetFilename = some rf →
      IsAducResultCodeFailure (json_object_get_number (some rf) "resultCode") = false →
      (∀ j, k < j → j < files.length →
        ∃ e2, files.get? j = some (some e2) ∧
          resolveSelector dl e2.targetFilename = none) →
      (downloadLoop dl files res d0).2.1 =
        json_object_get_string (some rf) "resultDetails" := by
  intro k
  induction k with
  | zero =>
    intro files res d0 e rf _ hk hrf hnf hafter
    cases files with
    | nil => cases hk
    | cons f0 rest =>
      have hf0 : f0 = some e := by simpa using hk
      subst hf0
      have hrest : ∀ j, j < rest.length →
          ∃ e2, rest.get? j = some (some e2) ∧
            resolveSelector dl e2.targetFilename = none := by
        intro j hj
        obtain ⟨e2, he2, hr2⟩ := hafter (j + 1) (Nat.succ_pos _) (Nat.succ_lt_succ hj)
        exact ⟨e2, by simpa using he2, hr2⟩
      have hno := downloadLoop_no_match_detail dl rest
        ⟨json_object_get_number (some rf) "resultCode",
         json_object_get_number (some rf) "extendedResultCode"⟩
        (json_object_get_string (some rf) "resultDetails") hrest
      simp [downloadLoop, hrf, hnf, hno]
  | succ k ih =>
    intro files res d0 e rf hsucc hk hrf hnf hafter
    cases files with
    | nil => cases hk
    | cons f0 rest =>
      have h0 : fileStepSucceeds dl f0 = true := by
        simpa using hsucc 0 (Nat.succ_pos k)
      cases f0 with
      | none => simp [fileStepSucceeds] at h0
      | some e0 =>
        have hk' : rest.get? k = some (some e) := by simpa using hk
        have hsucc' : ∀ j, j < k → fileStepSucceeds dl (rest.getD j none) = true := by
          intro j hj
          simpa using hsucc (j + 1) (Nat.succ_lt_succ hj)
        have hafter' : ∀ j, k < j → j < rest.length →
            ∃ e2, rest.get? j = some (some e2) ∧
              resolveSelector dl e2.targetFilename = none := by
          intro j hj1 hj2
          obtain ⟨e2, he2, hr2⟩ := hafter (j + 1) (Nat.succ_lt_succ hj1) (Nat.succ_lt_succ hj2)
          exact ⟨e2, by simpa using he2, hr2⟩
        cases hres : resolveSelector dl e0.targetFilename with
        | none =>
          have hrec := ih rest ⟨ADUC_Result_Download_Success, 0⟩ d0 e rf
            hsucc' hk' hrf hnf hafter'
          simp [downloadLoop, hres, hrec]
        | some rf0 =>
          have hnf0 : IsAducResultCodeFailure
              (json_object_get_number (some rf0) "resultCode") = false := by
            have := h0
            simp [fileStepSucceeds, hres] at this
            simpa using this
          have hrec := ih rest
            ⟨json_object_get_number (some rf0) "resultCode",
             json_object_get_number (some rf0) "extendedResultCode"⟩
            (json_object_get_string (some rf0) "resultDetails") e rf
            hsucc' hk' hrf hnf hafter'
          simp [downloadLoop, hres, hnf0, hrec]

/-- Claim C8: in any Download, whenever the per-file lookup matches a record
(exact filename or wildcard) for the file at any index k the loop reaches,
the workflow detail text is set from that record's resultDetails field even
when its result code is a success code: when the matched record fails, the
call returns with that record's detail text; when it succeeds and no later
file matches a record, that record's detail text is the one finally left on
the handle — so with several matching files the text last set is that of the
last matched file. -/
theorem C8_details_set_even_on_success (h : ADUC_WorkflowHandle)
    (parsed : Option JSONValue) (data : JSONObject) (k : Nat)
    (e : ADUC_FileEntity) (rf : JSONObject)
    (hdata : ReadDataFile parsed = some data)
    (hbefore : ∀ j, j < k →
      fileStepSucceeds (downloadTable data) ((downloadFiles h).getD j none) = true)
    (hk : (downloadFiles h).get? k = some (some e))
    (hrf : resolveSelector (downloadTable data) e.targetFilename = some rf) :
    (IsAducResultCodeFailure (json_object_get_number (some rf) "resultCode") = true →
      (Download h parsed).2.1.resultDetails =
        json_object_get_string (some rf) "resultDetails") ∧
    (IsAducResultCodeFailure (json_object_get_number (some rf) "resultCode") = false →
      (∀ j, k < j → j < (downloadFiles h).length →
        ∃ e2, (downloadFiles h).get? j = some (some e2) ∧
          resolveSelector (downloadTable data) e2.targetFilename = none) →
      (Download h parsed).2.1.resultDetails =
        json_object_get_string (some rf) "resultDetails") := by
  constructor
  · intro hfail
    have hloop := downloadLoop_first_failure (downloadTable data) k (downloadFiles h)
      ⟨ADUC_Result_Download_Success, 0⟩ h.resultDetails e rf hbefore hk hrf hfail
    simp [Download, hdata, hloop, workflow_set_result_details]
  · intro hnf hafter
    have hloop := downloadLoop_last_match_detail (downloadTable data) k (downloadFiles h)
      ⟨ADUC_Result_Download_Success, 0⟩ h.resultDetails e rf hbefore hk hrf hnf hafter
    simp [Download, hdata, hloop, workflow_set_result_details]

/-- Witness for C8 on a mixed pattern over three files: file a matches a
success record (detail `da`), file b matches a success record (detail `db`),
file c matches nothing; the detail text finally left on the handle is that
of the last matched file, `db`, even though its record succeeded. -/
theorem C8_details_set_even_on_success_witness :
    (Download hWitFiles (some scenDownloadTwoSuccesses)).2.1.resultDetails = some "db" :=
  (C8_details_set_even_on_success hWitFiles (some scenDownloadTwoSuccesses)
      [("download",
        JSONValue.jobj [("a",
          JSONValue.jobj [("resultCode", JSONValue.jnum 501),
                          ("resultDetails", JSONValue.jstr "da")]),
         ("b",
          JSONValue.jobj [("resultCode", JSONValue.jnum 502),
                          ("resultDetails", JSONValue.jstr "db")])])]
      1 { targetFilename := "b" }
      [("resultCode", JSONValue.jnum 502), ("resultDetails", JSONValue.jstr "db")]
      rfl (by decide) rfl rfl).2 (by decide)
    (by
      intro j hj1 hj2
      have hj3 : j < 3 := hj2
      interval_cases j
      exact ⟨{ targetFilename := "c" }, rfl, rfl⟩)

/-- Claim C9: a matched record that omits the resultCode field resolves to
result code 0, the numeric-lookup default, which is a failing code; an empty
record therefore yields the failure result 0/0 and, in Download, stops any
remaining file from being processed; the same flat reading applies in the
common resolver (shown for Install). -/
theorem C9_missing_resultCode_is_failing_zero (h : ADUC_WorkflowHandle)
    (parsed : Option JSONValue) (data : JSONObject) (e : ADUC_FileEntity)
    (rest : List (Option ADUC_FileEntity)) (rf t : JSONObject) :
    IsAducResultCodeFailure 0 = true ∧
    (∀ ro : JSONObject, json_object_get_value (some ro) "resultCode" = none →
      json_object_get_number (some ro) "resultCode" = 0) ∧
    (ReadDataFile parsed = some data →
      downloadFiles h = some e :: rest →
      resolveSelector (downloadTable data) e.targetFilename = some rf →
      json_object_get_value (some rf) "resultCode" = none →
      json_object_get_value (some rf) "extendedResultCode" = none →
      (Download h parsed).1 = { resultCode := 0, extendedResultCode := 0 } ∧
      (Download h parsed).2.2 = 1) ∧
    (ReadDataFile parsed = some data →
      json_value_get_object (json_object_get_value (some data) "install") = some t →
      json_object_get_value (some t) "resultCode" = none →
      json_object_get_value (some t) "extendedResultCode" = none →
      (Install h parsed).1 = { resultCode := 0, extendedResultCode := 0 }) := by
  refine ⟨rfl, ?_, ?_, ?_⟩
  · intro ro h0
    simp [json_object_get_number, h0]
  · intro hdata hfiles hrf hrc herc
    have hrc0 : json_object_get_number (some rf) "resultCode" = 0 := by
      simp [json_object_get_number, hrc]
    have herc0 : json_object_get_number (some rf) "extendedResultCode" = 0 := by
      simp [json_object_get_number, herc]
    constructor
    · simp [Download, hdata, hfiles, downloadLoop, hrf, hrc0, herc0,
        IsAducResultCodeFailure]
    · simp [Download, hdata, hfiles, downloadLoop, hrf, hrc0, herc0,
        IsAducResultCodeFailure]
  · intro hdata ht hrc herc
    have hrc0 : json_object_get_number (some t) "resultCode" = 0 := by
      simp [json_object_get_number, hrc]
    have herc0 : json_object_get_number (some t) "extendedResultCode" = 0 := by
      simp [json_object_get_number, herc]
    simp [Install, SimulatorActionHelper, hdata, ht, hrc0, herc0]

/-- Witness for C9: file a matches the scripted empty record; Download fails
with 0/0 after a single fetch attempt, leaving file b unprocessed. -/
theorem C9_missing_resultCode_is_failing_zero_witness :
    (Download hWitTwoFiles (some scenDownloadEmptyRecord)).1 =
      { resultCode := 0, extendedResultCode := 0 } ∧
    (Download hWitTwoFiles (some scenDownloadEmptyRecord)).2.2 = 1 :=
  (C9_missing_resultCode_is_failing_zero hWitTwoFiles (some scenDownloadEmptyRecord)
      [("download", JSONValue.jobj [("a", JSONValue.jobj [])])]
      { targetFilename := "a" } [some { targetFilename := "b" }] [] []).2.2.1
    rfl rfl rfl rfl rfl

/-- Claim C10: when the installed-criteria string is null or empty,
IsInstalled skips selector matching entirely and reads the isInstalled
table's top-level fields directly as the record; a table holding only
sub-records (for instance only a wildcard entry) therefore resolves to
result code 0. -/
theorem C10_empty_criteria_reads_table_flat (h : ADUC_WorkflowHandle)
    (parsed : Option JSONValue) (data t : JSONObject)
    (hc : h.installedCriteria = none ∨ h.installedCriteria = some "")
    (hdata : ReadDataFile parsed = some data)
    (ht : json_value_get_object (json_object_get_value (some data) "isInstalled") = some t) :
    (IsInstalled h parsed).1 =
      { resultCode := json_object_get_number (some t) "resultCode",
        extendedResultCode := json_object_get_number (some t) "extendedResultCode" } ∧
    (json_object_get_value (some t) "resultCode" = none →
      (IsInstalled h parsed).1.resultCode = 0) := by
  have hmain : (IsInstalled h parsed).1 =
      { resultCode := json_object_get_number (some t) "resultCode",
        extendedResultCode := json_object_get_number (some t) "extendedResultCode" } := by
    cases hc with
    | inl hnone =>
      simp [IsInstalled, workflow_get_installed_criteria, hnone,
        SimulatorActionHelper, hdata, ht]
    | inr hempty =>
      simp [IsInstalled, workflow_get_installed_criteria, hempty,
        SimulatorActionHelper, hdata, ht]
  refine ⟨hmain, ?_⟩
  intro hrc
  rw [hmain]
  simp [json_object_get_number, hrc]

/-- Witness for C10: with a null installed-criteria string and an isInstalled
table holding only a wildcard sub-record, IsInstalled resolves the table
itself and returns result code 0. -/
theorem C10_empty_criteria_reads_table_flat_witness :
    (IsInstalled hWit (some scenIsInstalledWildcardOnly)).1.resultCode = 0 :=
  (C10_empty_criteria_reads_table_flat hWit (some scenIsInstalledWildcardOnly)
      [("isInstalled",
        JSONValue.jobj [("*", JSONValue.jobj [("resultCode", JSONValue.jnum 901)])])]
      [("*", JSONValue.jobj [("resultCode", JSONValue.jnum 901)])]
      (Or.inl rfl) rfl rfl).2 rfl

end ADUSim
